import Mathlib

/-!
# Verification of the recursive dynamic-library dependency resolver

Shallow embedding of `src/lib.rs` of `rust-dyn-lib-finder`: an `ldd`-like
recursive resolver that, starting from one ELF file, extracts `DT_NEEDED`
dependency names and `DT_RPATH`/`DT_RUNPATH` hints from the `.dynamic`
section (indexing the `.dynstr` string table), assembles an ordered list of
search directories, resolves each dependency name to an on-disk path of
matching word size, and recurses, deduplicating via a visited set.

Modelling conventions:
* Paths, dependency names and raw string-table contents are byte strings
  (`List Nat`), since the source works on `&[u8]` until an explicit UTF-8
  decode (`std::str::from_utf8`).
* The file system, the ELF decoding capability (the external `elf` crate:
  `fs::read` + `ElfBytes::minimal_parse` + section lookups) and the
  `LD_LIBRARY_PATH` environment variable are a `World` record of pure
  functions: `readElf` collapses the read/parse pipeline of one path into
  its outcome, `pathExists` is `Path::exists`, `ldLibraryPath` is the
  `env::var` result.
* Unbounded Rust recursion is modelled with a fuel parameter; running out
  of fuel is the distinguished outcome `COut.fuelOut`, never conflated with
  the program's own outcomes.
* A Rust `.expect(..)` panic is the outcome `COut.panic`; the `None` return
  of `collect_libs` (the `?` operator and the not-found return) is
  `COut.fail`.
* `HashSet<PathBuf>` membership uses `PathBuf` equality, which in Rust's
  standard library compares paths component-wise (`Path::components`);
  `pathComponents` reproduces that normalisation (repeated separators,
  trailing separators and interior `.` segments collapse; nothing else).
-/

namespace DynLibFinder

/-- Byte string of an ASCII string literal (all literals of the source are
ASCII, where code points and UTF-8 bytes coincide). -/
def bytes (s : String) : List Nat := s.data.map Char.toNat

/-- Rust `str::split(':')` / `split` on one separator byte: splitting an
empty string yields one empty piece, `n` separators yield `n + 1` pieces. -/
def splitOnByte (sep : Nat) : List Nat → List (List Nat)
  | [] => [[]]
  | b :: t =>
    let r := splitOnByte sep t
    if b == sep then [] :: r
    else
      match r with
      | h :: t2 => (b :: h) :: t2
      | [] => [[b]]

/-- Is `b` a UTF-8 continuation byte (`0x80 ..= 0xBF`)? -/
def utf8Cont (b : Nat) : Bool := 0x80 ≤ b && b ≤ 0xBF

/-- UTF-8 validity of a byte string, exactly as `std::str::from_utf8`
decides it (RFC 3629: overlong encodings, surrogates and code points above
`U+10FFFF` are rejected). -/
def utf8Valid : List Nat → Bool
  | [] => true
  | b :: t =>
    if b ≤ 0x7F then utf8Valid t
    else if 0xC2 ≤ b && b ≤ 0xDF then
      match t with
      | c1 :: t1 => utf8Cont c1 && utf8Valid t1
      | [] => false
    else if b == 0xE0 then
      match t with
      | c1 :: c2 :: t2 => (0xA0 ≤ c1 && c1 ≤ 0xBF) && utf8Cont c2 && utf8Valid t2
      | _ => false
    else if (0xE1 ≤ b && b ≤ 0xEC) || b == 0xEE || b == 0xEF then
      match t with
      | c1 :: c2 :: t2 => utf8Cont c1 && utf8Cont c2 && utf8Valid t2
      | _ => false
    else if b == 0xED then
      match t with
      | c1 :: c2 :: t2 => (0x80 ≤ c1 && c1 ≤ 0x9F) && utf8Cont c2 && utf8Valid t2
      | _ => false
    else if b == 0xF0 then
      match t with
      | c1 :: c2 :: c3 :: t3 =>
        (0x90 ≤ c1 && c1 ≤ 0xBF) && utf8Cont c2 && utf8Cont c3 && utf8Valid t3
      | _ => false
    else if 0xF1 ≤ b && b ≤ 0xF3 then
      match t with
      | c1 :: c2 :: c3 :: t3 =>
        utf8Cont c1 && utf8Cont c2 && utf8Cont c3 && utf8Valid t3
      | _ => false
    else if b == 0xF4 then
      match t with
      | c1 :: c2 :: c3 :: t3 =>
        (0x80 ≤ c1 && c1 ≤ 0x8F) && utf8Cont c2 && utf8Cont c3 && utf8Valid t3
      | _ => false
    else false

/-- `fn u8_slice_to_str(c_str: &[u8]) -> Option<&str>` of the source: find
the first null byte; if none exists, `None`; otherwise decode the prefix
before it as UTF-8, `None` on invalid bytes.  The decoded value stays a byte
string here (Rust's `&str` is its UTF-8 bytes). -/
def u8_slice_to_str (c_str : List Nat) : Option (List Nat) :=
  match c_str.findIdx? (fun b => b == 0) with
  | some e =>
    let slice := c_str.take e
    if utf8Valid slice then some slice else none
  | none => none

/-- `PathBuf::join` (via `PathBuf::push`) on Unix: an absolute right operand
replaces the left; otherwise the two are concatenated with a `/` separator
inserted unless the left is empty or already ends in `/`. -/
def path_join (dir name : List Nat) : List Nat :=
  if name.head? == some 47 then name
  else if dir == [] then name
  else if dir.getLast? == some 47 then dir ++ name
  else dir ++ [47] ++ name

/-- The `.` path segment. -/
def dotSeg : List Nat := [46]

/-- Rust `Path::components()` on Unix, as a list of segments with the empty
list marking the leading root `/`: repeated and trailing separators are
dropped, `.` segments are dropped except as the first component of a
relative path, `..` and everything else is kept verbatim.  `PathBuf`
equality (hence `HashSet<PathBuf>` membership) compares these. -/
def pathComponents (p : List Nat) : List (List Nat) :=
  let hasRoot := p.head? == some 47
  let segs := (splitOnByte 47 p).filter (fun s => s ≠ [])
  let segs2 :=
    if hasRoot then segs.filter (fun s => s ≠ dotSeg)
    else
      match segs with
      | s :: rest =>
        if s = dotSeg then dotSeg :: rest.filter (fun s2 => s2 ≠ dotSeg)
        else segs.filter (fun s2 => s2 ≠ dotSeg)
      | [] => []
  if hasRoot then [] :: segs2 else segs2

/-- The dynamic-entry tags the source inspects: `DT_NEEDED`, `DT_RPATH`,
`DT_RUNPATH`; every other tag is ignored by its loop. -/
inductive Tag where
  | needed
  | rpath
  | runpath
  | other
  deriving DecidableEq, Repr

/-- One `.dynamic` entry: its tag and its value `d_val()` (a byte offset
into `.dynstr` for the tags above). -/
structure DynEntry where
  tag : Tag
  val : Nat
  deriving DecidableEq, Repr

/-- What the external ELF decoder exposes of one successfully parsed file:
the header class (`is64 = true` for `ELF64`, `false` for `ELF32` — the only
two classes of the decoder's `Class` enum), the raw bytes of the `.dynstr`
section (`none` when the section lookup fails or the section is absent) and
the `.dynamic` entries (`none` likewise). -/
structure ElfData where
  is64 : Bool
  dynstr : Option (List Nat)
  dynamic : Option (List DynEntry)
  deriving DecidableEq, Repr

/-- Outcome of `fs::read` followed by `ElfBytes::minimal_parse` on one
path: the read fails, the parse fails, or the decoded data is available. -/
inductive ReadElf where
  | readErr
  | parseErr
  | ok (e : ElfData)
  deriving DecidableEq, Repr

/-- The ambient state the program consults: file reads, existence tests and
the `LD_LIBRARY_PATH` variable (`none` = `env::var` returned `Err`). -/
structure World where
  readElf : List Nat → ReadElf
  pathExists : List Nat → Bool
  ldLibraryPath : Option (List Nat)

/-- `fn verify_arch(lib_path, is_64_bit_executable) -> bool`: `false` when
the candidate cannot be read or parsed, otherwise whether its class matches
the requesting file's word size. -/
def verify_arch (w : World) (lib_path : List Nat) (is_64_bit_executable : Bool) : Bool :=
  match w.readElf lib_path with
  | .ok e => e.is64 == is_64_bit_executable
  | _ => false

/-- The fixed system directories `collect_libs` seeds `search_dirs` with,
in source order. -/
def fixed_dirs : List (List Nat) :=
  [bytes "/usr/lib", bytes "/lib64", bytes "/lib/x86_64-linux-gnu",
   bytes "/lib", bytes "/usr/lib64"]

/-- The directories contributed by `LD_LIBRARY_PATH`: colon-split, kept
only when they exist on disk, in order. -/
def env_dirs (w : World) : List (List Nat) :=
  match w.ldLibraryPath with
  | none => []
  | some v => (splitOnByte 58 v).filter (fun d => w.pathExists d)

/-- The full per-file search-directory list: the fixed directories, then
the existing `LD_LIBRARY_PATH` directories, then the `RPATH`/`RUNPATH`
hints (pushed unfiltered by the dynamic-entry loop). -/
def search_dirs (w : World) (hints : List (List Nat)) : List (List Nat) :=
  (fixed_dirs ++ env_dirs w) ++ hints

/-- Outcome of the dynamic-entry loop: the accumulated `DT_NEEDED` names
and hint directories, or an abort (`fail` = the `?` on a `DT_NEEDED`
decode, `panic` = the `.expect` on an `RPATH`/`RUNPATH` decode or an
out-of-bounds string-table slice). -/
inductive PEOut where
  | ok (libs : List (List Nat)) (hints : List (List Nat))
  | fail
  | panic
  deriving DecidableEq, Repr

/-- The `for entry in dynamic` loop of `collect_libs`: `DT_NEEDED` appends
the decoded name to `libs` (`?` on decode failure); `DT_RPATH`/`DT_RUNPATH`
colon-split the decoded string onto the hint list (`.expect` on decode
failure); other tags are skipped.  Slicing `&dynstr_bytes[offset..]` panics
when the offset exceeds the section length. -/
def process_entries (dynstr : List Nat) :
    List DynEntry → List (List Nat) → List (List Nat) → PEOut
  | [], libs, hints => .ok libs hints
  | e :: rest, libs, hints =>
    match e.tag with
    | .needed =>
      if dynstr.length < e.val then .panic
      else
        match u8_slice_to_str (dynstr.drop e.val) with
        | some s => process_entries dynstr rest (libs ++ [s]) hints
        | none => .fail
    | .rpath =>
      if dynstr.length < e.val then .panic
      else
        match u8_slice_to_str (dynstr.drop e.val) with
        | some s => process_entries dynstr rest libs (hints ++ splitOnByte 58 s)
        | none => .panic
    | .runpath =>
      if dynstr.length < e.val then .panic
      else
        match u8_slice_to_str (dynstr.drop e.val) with
        | some s => process_entries dynstr rest libs (hints ++ splitOnByte 58 s)
        | none => .panic
    | .other => process_entries dynstr rest libs hints

/-- Outcome of one `collect_libs` call: `ok` = `Some(())`, `fail` =
`None`, `panic` = an `.expect` fired, `fuelOut` = the fuel bound of the
embedding was reached (no Rust counterpart). -/
inductive COut where
  | ok
  | fail
  | panic
  | fuelOut
  deriving DecidableEq, Repr

/-- The mutable accumulators threaded through the traversal: `seen_libs`
(the `HashSet<PathBuf>`, as its insertion list) and `lib_paths` (the result
`Vec<PathBuf>`, in push order). -/
structure CState where
  visited : List (List Nat)
  results : List (List Nat)
  deriving DecidableEq, Repr

/-- Outcome of the inner `for dir in search_dirs` loop for one dependency
name: no directory matched (`found` stayed `false`), or a candidate was
accepted and — after the visited-set check and possible recursion — the
loop broke with the recursion's outcome (`found .ok` when no recursion was
needed or it succeeded). -/
inductive FindOut where
  | missing
  | found (after : COut)
  deriving DecidableEq, Repr

/-- The `for dir in search_dirs` loop body for one dependency `lib`: join
the directory with the name; on `exists() && verify_arch(..)` accept the
candidate — if it is already in `seen_libs` just record success, otherwise
insert it, push it onto the results and recurse via `rec` — and break;
otherwise try the next directory.  `rec` stands for the recursive
`ElfFile::collect_libs` call (instantiated with one unit less fuel). -/
def resolve_one (w : World) (is64 : Bool)
    (rec : List Nat → CState → CState × COut) (lib : List Nat) :
    List (List Nat) → CState → CState × FindOut
  | [], st => (st, .missing)
  | dir :: rest, st =>
    let cand := path_join dir lib
    if w.pathExists cand && verify_arch w cand is64 then
      if st.visited.any (fun v => pathComponents v == pathComponents cand) then
        (st, .found .ok)
      else
        let st1 : CState := ⟨cand :: st.visited, st.results ++ [cand]⟩
        let r := rec cand st1
        (r.1, .found r.2)
    else resolve_one w is64 rec lib rest st

/-- The outer `for lib in libs` loop of `collect_libs`: resolve each
dependency in declaration order; a missing dependency returns `None`
(`fail`) immediately; a failing recursion propagates its outcome
immediately (the `?` operator); otherwise continue with the next name. -/
def resolve_libs (w : World) (is64 : Bool)
    (rec : List Nat → CState → CState × COut) (dirs : List (List Nat)) :
    List (List Nat) → CState → CState × COut
  | [], st => (st, .ok)
  | lib :: rest, st =>
    let r := resolve_one w is64 rec lib dirs st
    match r.2 with
    | .missing => (r.1, .fail)
    | .found .ok => resolve_libs w is64 rec dirs rest r.1
    | .found c => (r.1, c)

/-- `fn collect_libs(path, seen_libs, lib_paths) -> Option<()>`: read and
parse the file (`.expect` panics on failure), classify its word size, slice
`.dynstr` (`.expect` panics when the lookup fails or the section is
absent), build the search directories (fixed, then existing
`LD_LIBRARY_PATH` entries), iterate `.dynamic` (`.expect` panics when it is
absent) collecting needed names and hint directories, then resolve every
needed name.  Structurally recursive on the fuel, which the Rust code does
not have: each nested `collect_libs` call burns one unit. -/
def collect_libs (w : World) : Nat → List Nat → CState → CState × COut
  | 0, _, st => (st, .fuelOut)
  | fuel + 1, path, st =>
    match w.readElf path with
    | .readErr => (st, .panic)
    | .parseErr => (st, .panic)
    | .ok e =>
      match e.dynstr with
      | none => (st, .panic)
      | some dynstr =>
        match e.dynamic with
        | none => (st, .panic)
        | some entries =>
          match process_entries dynstr entries [] [] with
          | .fail => (st, .fail)
          | .panic => (st, .panic)
          | .ok libs hints =>
            resolve_libs w e.is64 (collect_libs w fuel) (search_dirs w hints) libs st

/-- What the caller of `get_libs_full_paths` observes: the `Some` vector,
the `None` signal, a panic, or fuel exhaustion of the embedding. -/
inductive GOut where
  | some_ (paths : List (List Nat))
  | none_
  | panic
  | fuelOut
  deriving DecidableEq, Repr

/-- `fn get_libs_full_paths(&self) -> Option<Vec<PathBuf>>`: seed
`seen_libs` with the file's own path, start with an empty result vector,
run `collect_libs` and map success to the accumulated vector. -/
def get_libs_full_paths (w : World) (fuel : Nat) (path : List Nat) : GOut :=
  let r := collect_libs w fuel path ⟨[path], []⟩
  match r.2 with
  | .ok => .some_ r.1.results
  | .fail => .none_
  | .panic => .panic
  | .fuelOut => .fuelOut

/-! ## Concrete worlds used by counterexamples and witnesses -/

/-- Path of library `libA` in the fixed directory `/usr/lib`. -/
def pA : List Nat := bytes "/usr/lib/libA"

/-- Path of library `libB` in the fixed directory `/usr/lib`. -/
def pB : List Nat := bytes "/usr/lib/libB"

/-- A two-node dependency cycle: `libA` needs `libB`, `libB` needs `libA`,
both 64-bit files in `/usr/lib`, no environment variable, no hints. -/
def Wcyc : World :=
  ⟨fun p =>
    if p = pA then .ok ⟨true, some (bytes "libB" ++ [0]), some [⟨.needed, 0⟩]⟩
    else if p = pB then .ok ⟨true, some (bytes "libA" ++ [0]), some [⟨.needed, 0⟩]⟩
    else .readErr,
   fun p => p == pA || p == pB,
   none⟩

/-- A world where every read fails and nothing exists. -/
def WreadErr : World := ⟨fun _ => .readErr, fun _ => false, none⟩

/-- A world where every path exists but no file can be read. -/
def Wunread : World := ⟨fun _ => .readErr, fun _ => true, none⟩

/-- `/app/main` (64-bit) needs `x`; a 64-bit `x` exists both in the fixed
directory `/usr/lib` and in the existing `LD_LIBRARY_PATH` directory
`/opt`. -/
def W3 : World :=
  ⟨fun p =>
    if p = bytes "/app/main" then
      .ok ⟨true, some (bytes "x" ++ [0]), some [⟨.needed, 0⟩]⟩
    else if p = bytes "/usr/lib/x" ∨ p = bytes "/opt/x" then
      .ok ⟨true, some [0], some []⟩
    else .readErr,
   fun p =>
    p == bytes "/opt" || p == bytes "/usr/lib/x" ||
      p == bytes "/opt/x" || p == bytes "/app/main",
   some (bytes "/opt")⟩

/-- `/a` (64-bit) declares one dependency `x`, but no matching file exists
anywhere on disk. -/
def Wmiss : World :=
  ⟨fun p =>
    if p = bytes "/a" then
      .ok ⟨true, some (bytes "x" ++ [0]), some [⟨.needed, 0⟩]⟩
    else .readErr,
   fun _ => false,
   none⟩

/-- `/a` (64-bit) declares one dependency `x`; `/usr/lib/x` exists on disk
but is a 32-bit file. -/
def Warch : World :=
  ⟨fun p =>
    if p = bytes "/a" then
      .ok ⟨true, some (bytes "x" ++ [0]), some [⟨.needed, 0⟩]⟩
    else if p = bytes "/usr/lib/x" then .ok ⟨false, none, none⟩
    else .readErr,
   fun p => p == bytes "/usr/lib/x",
   none⟩

/-- `/a` declares one dependency whose name bytes (`0xFF`) are not valid
UTF-8. -/
def Wbadstr : World :=
  ⟨fun p =>
    if p = bytes "/a" then .ok ⟨true, some [255, 0], some [⟨.needed, 0⟩]⟩
    else .readErr,
   fun _ => false,
   none⟩

/-- `/a` carries an `RPATH` hint whose bytes (`0xFF`) are not valid
UTF-8. -/
def Wbadhint : World :=
  ⟨fun p =>
    if p = bytes "/a" then .ok ⟨true, some [255, 0], some [⟨.rpath, 0⟩]⟩
    else .readErr,
   fun _ => false,
   none⟩

/-- The starting file is supplied under the spelling `/usr/lib//init`
(redundant separator) and declares the dependency `init`, whose resolution
finds the same underlying file under the spelling `/usr/lib/init`. -/
def Wc9 : World :=
  ⟨fun p =>
    if p = bytes "/usr/lib//init" then
      .ok ⟨true, some (bytes "init" ++ [0]), some [⟨.needed, 0⟩]⟩
    else if p = bytes "/usr/lib/init" then .ok ⟨true, none, none⟩
    else .readErr,
   fun p => p == bytes "/usr/lib/init" || p == bytes "/usr/lib//init",
   none⟩

/-- `/app/main` needs `liba` and `libb`; `/usr/lib/liba` and
`/usr/lib/libb` are one underlying file (identical reads — a hard link the
resolver cannot see through), both 64-bit with no further dependencies. -/
def Wc9b : World :=
  ⟨fun p =>
    if p = bytes "/app/main" then
      .ok ⟨true, some (bytes "liba" ++ [0] ++ bytes "libb" ++ [0]),
           some [⟨.needed, 0⟩, ⟨.needed, 5⟩]⟩
    else if p = bytes "/usr/lib/liba" ∨ p = bytes "/usr/lib/libb" then
      .ok ⟨true, some [0], some []⟩
    else .readErr,
   fun p =>
    p == bytes "/usr/lib/liba" || p == bytes "/usr/lib/libb" ||
      p == bytes "/app/main",
   none⟩

/-! ## Behaviour of the directory-probing loop -/

/-- The probe condition of the `for dir in search_dirs` loop for candidate
`path_join dir lib`: on-disk existence and matching word size. -/
def probes (w : World) (is64 : Bool) (dir lib : List Nat) : Bool :=
  w.pathExists (path_join dir lib) && verify_arch w (path_join dir lib) is64

/-- The visited-set membership test of the loop (`HashSet<PathBuf>`
containment, i.e. component-wise path equality against some element). -/
def seenTest (st : CState) (cand : List Nat) : Bool :=
  st.visited.any (fun v => pathComponents v == pathComponents cand)

theorem resolve_one_skip (w : World) (is64 : Bool)
    (rec : List Nat → CState → CState × COut) (lib dir : List Nat)
    (rest : List (List Nat)) (st : CState)
    (h : probes w is64 dir lib = false) :
    resolve_one w is64 rec lib (dir :: rest) st = resolve_one w is64 rec lib rest st := by
  simp only [resolve_one, probes] at *
  simp [h]

theorem resolve_one_hit (w : World) (is64 : Bool)
    (rec : List Nat → CState → CState × COut) (lib dir : List Nat)
    (rest : List (List Nat)) (st : CState)
    (h1 : probes w is64 dir lib = true)
    (h2 : seenTest st (path_join dir lib) = true) :
    resolve_one w is64 rec lib (dir :: rest) st = (st, .found .ok) := by
  simp only [probes] at h1
  simp only [seenTest] at h2
  simp [resolve_one, h1, h2]

theorem resolve_one_fresh (w : World) (is64 : Bool)
    (rec : List Nat → CState → CState × COut) (lib dir : List Nat)
    (rest : List (List Nat)) (st : CState)
    (h1 : probes w is64 dir lib = true)
    (h2 : seenTest st (path_join dir lib) = false) :
    resolve_one w is64 rec lib (dir :: rest) st =
      ((rec (path_join dir lib)
          ⟨path_join dir lib :: st.visited, st.results ++ [path_join dir lib]⟩).1,
       .found (rec (path_join dir lib)
          ⟨path_join dir lib :: st.visited, st.results ++ [path_join dir lib]⟩).2) := by
  simp only [probes] at h1
  simp only [seenTest] at h2
  simp [resolve_one, h1, h2]

/-- When the head directory satisfies the probe, the loop acts on it and
breaks: the remaining directories are irrelevant. -/
theorem resolve_one_head_irrel (w : World) (is64 : Bool)
    (rec : List Nat → CState → CState × COut) (lib dir : List Nat)
    (rest rest2 : List (List Nat)) (st : CState)
    (h1 : probes w is64 dir lib = true) :
    resolve_one w is64 rec lib (dir :: rest) st
      = resolve_one w is64 rec lib (dir :: rest2) st := by
  by_cases h2 : seenTest st (path_join dir lib) = true
  · rw [resolve_one_hit w is64 rec lib dir rest st h1 h2,
      resolve_one_hit w is64 rec lib dir rest2 st h1 h2]
  · have h2' : seenTest st (path_join dir lib) = false := by
      revert h2; cases seenTest st (path_join dir lib) <;> simp
    rw [resolve_one_fresh w is64 rec lib dir rest st h1 h2',
      resolve_one_fresh w is64 rec lib dir rest2 st h1 h2']

/-- When no directory's candidate passes the probe, the loop exhausts the
list, leaves the state untouched and reports the dependency missing. -/
theorem resolve_one_unfound (w : World) (is64 : Bool)
    (rec : List Nat → CState → CState × COut) (lib : List Nat) :
    ∀ (dirs : List (List Nat)) (st : CState),
      (∀ d ∈ dirs, probes w is64 d lib = false) →
      resolve_one w is64 rec lib dirs st = (st, .missing)
  | [], _, _ => rfl
  | d :: rest, st, h => by
    rw [resolve_one_skip w is64 rec lib d rest st (h d (by simp))]
    exact resolve_one_unfound w is64 rec lib rest st (fun d' hd' => h d' (by simp [hd']))

/-- A loop run that reports `missing` left the state untouched. -/
theorem resolve_one_missing_state (w : World) (is64 : Bool)
    (rec : List Nat → CState → CState × COut) (lib : List Nat) :
    ∀ (dirs : List (List Nat)) (st : CState),
      (resolve_one w is64 rec lib dirs st).2 = .missing →
      (resolve_one w is64 rec lib dirs st).1 = st
  | [], _, _ => rfl
  | d :: rest, st, h => by
    by_cases h1 : probes w is64 d lib = true
    · by_cases h2 : seenTest st (path_join d lib) = true
      · rw [resolve_one_hit w is64 rec lib d rest st h1 h2]
      · have h2' : seenTest st (path_join d lib) = false := by
          revert h2; cases seenTest st (path_join d lib) <;> simp
        rw [resolve_one_fresh w is64 rec lib d rest st h1 h2'] at h
        simp at h
    · have h1' : probes w is64 d lib = false := by
        revert h1; cases probes w is64 d lib <;> simp
      rw [resolve_one_skip w is64 rec lib d rest st h1'] at h ⊢
      exact resolve_one_missing_state w is64 rec lib rest st h

/-- Dropping a suffix of the directory list does not change a loop run that
already succeeds on the prefix. -/
theorem resolve_one_prefix_found (w : World) (is64 : Bool)
    (rec : List Nat → CState → CState × COut) (lib : List Nat) :
    ∀ (A B : List (List Nat)) (st : CState),
      (resolve_one w is64 rec lib A st).2 ≠ .missing →
      resolve_one w is64 rec lib (A ++ B) st = resolve_one w is64 rec lib A st
  | [], _, _, h => absurd rfl h
  | d :: rest, B, st, h => by
    by_cases h1 : probes w is64 d lib = true
    · exact resolve_one_head_irrel w is64 rec lib d (rest ++ B) rest st h1
    · have h1' : probes w is64 d lib = false := by
        revert h1; cases probes w is64 d lib <;> simp
      rw [resolve_one_skip w is64 rec lib d rest st h1'] at h
      rw [List.cons_append, resolve_one_skip w is64 rec lib d (rest ++ B) st h1',
        resolve_one_skip w is64 rec lib d rest st h1']
      exact resolve_one_prefix_found w is64 rec lib rest B st h

/-- First-match-wins: when every directory of a prefix fails the probe and
`d` passes it, the loop behaves as if `d` were the only directory — the
directories after `d` are never consulted. -/
theorem resolve_one_first_match (w : World) (is64 : Bool)
    (rec : List Nat → CState → CState × COut) (lib : List Nat) :
    ∀ (dirs1 : List (List Nat)) (d : List Nat) (dirs2 : List (List Nat)) (st : CState),
      (∀ d' ∈ dirs1, probes w is64 d' lib = false) →
      probes w is64 d lib = true →
      resolve_one w is64 rec lib (dirs1 ++ d :: dirs2) st
        = resolve_one w is64 rec lib [d] st
  | [], d, dirs2, st, _, hd => by
    exact resolve_one_head_irrel w is64 rec lib d dirs2 [] st hd
  | d1 :: rest1, d, dirs2, st, h, hd => by
    rw [List.cons_append, resolve_one_skip w is64 rec lib d1 (rest1 ++ d :: dirs2) st
      (h d1 (by simp))]
    exact resolve_one_first_match w is64 rec lib rest1 d dirs2 st
      (fun d' hd' => h d' (by simp [hd'])) hd

/-! ## Unfolding lemmas for `collect_libs` -/

theorem collect_libs_zero (w : World) (p : List Nat) (st : CState) :
    collect_libs w 0 p st = (st, .fuelOut) := rfl

theorem collect_libs_readErr (w : World) (fuel : Nat) (p : List Nat) (st : CState)
    (h : w.readElf p = .readErr) :
    collect_libs w (fuel + 1) p st = (st, .panic) := by
  simp [collect_libs, h]

theorem collect_libs_parseErr (w : World) (fuel : Nat) (p : List Nat) (st : CState)
    (h : w.readElf p = .parseErr) :
    collect_libs w (fuel + 1) p st = (st, .panic) := by
  simp [collect_libs, h]

theorem collect_libs_no_dynstr (w : World) (fuel : Nat) (p : List Nat) (st : CState)
    (e : ElfData) (h : w.readElf p = .ok e) (h2 : e.dynstr = none) :
    collect_libs w (fuel + 1) p st = (st, .panic) := by
  simp [collect_libs, h, h2]

theorem collect_libs_no_dynamic (w : World) (fuel : Nat) (p : List Nat) (st : CState)
    (e : ElfData) (dynstr : List Nat) (h : w.readElf p = .ok e)
    (h2 : e.dynstr = some dynstr) (h3 : e.dynamic = none) :
    collect_libs w (fuel + 1) p st = (st, .panic) := by
  simp [collect_libs, h, h2, h3]

theorem collect_libs_entries_fail (w : World) (fuel : Nat) (p : List Nat) (st : CState)
    (e : ElfData) (dynstr : List Nat) (entries : List DynEntry)
    (h : w.readElf p = .ok e) (h2 : e.dynstr = some dynstr) (h3 : e.dynamic = some entries)
    (h4 : process_entries dynstr entries [] [] = .fail) :
    collect_libs w (fuel + 1) p st = (st, .fail) := by
  simp [collect_libs, h, h2, h3, h4]

theorem collect_libs_entries_panic (w : World) (fuel : Nat) (p : List Nat) (st : CState)
    (e : ElfData) (dynstr : List Nat) (entries : List DynEntry)
    (h : w.readElf p = .ok e) (h2 : e.dynstr = some dynstr) (h3 : e.dynamic = some entries)
    (h4 : process_entries dynstr entries [] [] = .panic) :
    collect_libs w (fuel + 1) p st = (st, .panic) := by
  simp [collect_libs, h, h2, h3, h4]

theorem collect_libs_run (w : World) (fuel : Nat) (p : List Nat) (st : CState)
    (e : ElfData) (dynstr : List Nat) (entries : List DynEntry)
    (libs hints : List (List Nat))
    (h : w.readElf p = .ok e) (h2 : e.dynstr = some dynstr) (h3 : e.dynamic = some entries)
    (h4 : process_entries dynstr entries [] [] = .ok libs hints) :
    collect_libs w (fuel + 1) p st
      = resolve_libs w e.is64 (collect_libs w fuel) (search_dirs w hints) libs st := by
  simp [collect_libs, h, h2, h3, h4]

/-! ## The traversal invariant -/

/-- The data-model invariant on the accumulators: no duplicate in the
result list, and every result element is in the visited set. -/
def StInv (st : CState) : Prop :=
  st.results.Nodup ∧ ∀ q ∈ st.results, q ∈ st.visited

/-- One state evolves from another monotonically: the visited set only
receives insertions (new elements are consed in front) and the result list
only receives appends. -/
def StGrows (st st2 : CState) : Prop :=
  (∃ n, st2.visited = n ++ st.visited) ∧ (∃ m, st2.results = st.results ++ m)

theorem StGrows.refl (st : CState) : StGrows st st :=
  ⟨⟨[], rfl⟩, ⟨[], by simp⟩⟩

theorem StGrows.trans {st1 st2 st3 : CState}
    (h1 : StGrows st1 st2) (h2 : StGrows st2 st3) : StGrows st1 st3 := by
  obtain ⟨⟨n1, hv1⟩, ⟨m1, hr1⟩⟩ := h1
  obtain ⟨⟨n2, hv2⟩, ⟨m2, hr2⟩⟩ := h2
  exact ⟨⟨n2 ++ n1, by rw [hv2, hv1, List.append_assoc]⟩,
    ⟨m1 ++ m2, by rw [hr2, hr1, List.append_assoc]⟩⟩

/-- A recursion callee that preserves the invariant and only grows the
state (the property `collect_libs` enjoys at every fuel level). -/
def RecOk (rec : List Nat → CState → CState × COut) : Prop :=
  ∀ p st, StInv st → StInv (rec p st).1 ∧ StGrows st (rec p st).1

/-- Inserting a fresh candidate (one failing the visited-set test)
preserves the invariant and grows the state. -/
theorem insert_fresh_inv (st : CState) (cand : List Nat) (hinv : StInv st)
    (h2 : seenTest st cand = false) :
    StInv ⟨cand :: st.visited, st.results ++ [cand]⟩
      ∧ StGrows st ⟨cand :: st.visited, st.results ++ [cand]⟩ := by
  obtain ⟨hnd, hsub⟩ := hinv
  have hnotv : cand ∉ st.visited := by
    intro hmem
    have : st.visited.any (fun v => pathComponents v == pathComponents cand) = true :=
      List.any_eq_true.mpr ⟨cand, hmem, by simp⟩
    simp only [seenTest] at h2
    rw [h2] at this
    exact Bool.false_ne_true this
  have hnotr : cand ∉ st.results := fun hmem => hnotv (hsub cand hmem)
  refine ⟨⟨?_, ?_⟩, ⟨[cand], rfl⟩, ⟨[cand], rfl⟩⟩
  · simp [List.nodup_append, hnd, hnotr]
  · intro q hq
    simp only [List.mem_append, List.mem_singleton] at hq
    rcases hq with hq | hq
    · exact List.mem_cons_of_mem cand (hsub q hq)
    · simp [hq]

theorem resolve_one_inv (w : World) (is64 : Bool)
    (rec : List Nat → CState → CState × COut) (hrec : RecOk rec) (lib : List Nat) :
    ∀ (dirs : List (List Nat)) (st : CState), StInv st →
      StInv (resolve_one w is64 rec lib dirs st).1
        ∧ StGrows st (resolve_one w is64 rec lib dirs st).1
  | [], st, hinv => ⟨hinv, StGrows.refl st⟩
  | d :: rest, st, hinv => by
    by_cases h1 : probes w is64 d lib = true
    · by_cases h2 : seenTest st (path_join d lib) = true
      · rw [resolve_one_hit w is64 rec lib d rest st h1 h2]
        exact ⟨hinv, StGrows.refl st⟩
      · have h2' : seenTest st (path_join d lib) = false := by
          revert h2; cases seenTest st (path_join d lib) <;> simp
        rw [resolve_one_fresh w is64 rec lib d rest st h1 h2']
        obtain ⟨hinv1, hg1⟩ := insert_fresh_inv st (path_join d lib) hinv h2'
        obtain ⟨hinv2, hg2⟩ := hrec (path_join d lib)
          ⟨path_join d lib :: st.visited, st.results ++ [path_join d lib]⟩ hinv1
        exact ⟨hinv2, hg1.trans hg2⟩
    · have h1' : probes w is64 d lib = false := by
        revert h1; cases probes w is64 d lib <;> simp
      rw [resolve_one_skip w is64 rec lib d rest st h1']
      exact resolve_one_inv w is64 rec hrec lib rest st hinv

theorem resolve_libs_inv (w : World) (is64 : Bool)
    (rec : List Nat → CState → CState × COut) (hrec : RecOk rec)
    (dirs : List (List Nat)) :
    ∀ (libs : List (List Nat)) (st : CState), StInv st →
      StInv (resolve_libs w is64 rec dirs libs st).1
        ∧ StGrows st (resolve_libs w is64 rec dirs libs st).1
  | [], st, hinv => ⟨hinv, StGrows.refl st⟩
  | lib :: rest, st, hinv => by
    obtain ⟨hinv1, hg1⟩ := resolve_one_inv w is64 rec hrec lib dirs st hinv
    simp only [resolve_libs]
    cases hout : (resolve_one w is64 rec lib dirs st).2 with
    | missing => exact ⟨hinv1, hg1⟩
    | found c =>
      cases c with
      | ok =>
        obtain ⟨hinv2, hg2⟩ :=
          resolve_libs_inv w is64 rec hrec dirs rest (resolve_one w is64 rec lib dirs st).1 hinv1
        exact ⟨hinv2, hg1.trans hg2⟩
      | fail => exact ⟨hinv1, hg1⟩
      | panic => exact ⟨hinv1, hg1⟩
      | fuelOut => exact ⟨hinv1, hg1⟩

theorem collect_libs_inv (w : World) :
    ∀ fuel : Nat, RecOk (collect_libs w fuel)
  | 0, _, st, hinv => ⟨hinv, StGrows.refl st⟩
  | fuel + 1, p, st, hinv => by
    cases hre : w.readElf p with
    | readErr =>
      rw [collect_libs_readErr w fuel p st hre]
      exact ⟨hinv, StGrows.refl st⟩
    | parseErr =>
      rw [collect_libs_parseErr w fuel p st hre]
      exact ⟨hinv, StGrows.refl st⟩
    | ok e =>
      cases hds : e.dynstr with
      | none =>
        rw [collect_libs_no_dynstr w fuel p st e hre hds]
        exact ⟨hinv, StGrows.refl st⟩
      | some dynstr =>
        cases hdy : e.dynamic with
        | none =>
          rw [collect_libs_no_dynamic w fuel p st e dynstr hre hds hdy]
          exact ⟨hinv, StGrows.refl st⟩
        | some entries =>
          cases hpe : process_entries dynstr entries [] [] with
          | fail =>
            rw [collect_libs_entries_fail w fuel p st e dynstr entries hre hds hdy hpe]
            exact ⟨hinv, StGrows.refl st⟩
          | panic =>
            rw [collect_libs_entries_panic w fuel p st e dynstr entries hre hds hdy hpe]
            exact ⟨hinv, StGrows.refl st⟩
          | ok libs hints =>
            rw [collect_libs_run w fuel p st e dynstr entries libs hints hre hds hdy hpe]
            exact resolve_libs_inv w e.is64 (collect_libs w fuel)
              (collect_libs_inv w fuel) (search_dirs w hints) libs st hinv

/-! ## Claims -/

/-- C1: when some declared dependency name is not found — existing on disk
with matching word size — in any assembled search directory, the library
loop returns the `None` failure signal at once with the accumulators
untouched, regardless of the sibling dependencies after it; and a
`collect_libs` run that fails makes `get_libs_full_paths` return the
failure signal `None` instead of a result list. -/
theorem c1_unfound_dependency_aborts :
    (∀ (w : World) (is64 : Bool) (rec : List Nat → CState → CState × COut)
        (dirs : List (List Nat)) (lib : List Nat) (rest : List (List Nat)) (st : CState),
        (∀ d ∈ dirs,
          (w.pathExists (path_join d lib) && verify_arch w (path_join d lib) is64) = false) →
        resolve_libs w is64 rec dirs (lib :: rest) st = (st, .fail))
    ∧ (∀ (w : World) (fuel : Nat) (p : List Nat),
        (collect_libs w fuel p ⟨[p], []⟩).2 = .fail →
        get_libs_full_paths w fuel p = .none_) := by
  constructor
  · intro w is64 rec dirs lib rest st h
    have h' : ∀ d ∈ dirs, probes w is64 d lib = false := h
    simp [resolve_libs, resolve_one_unfound w is64 rec lib dirs st h']
  · intro w fuel p h
    simp [get_libs_full_paths, h]

/-- Witness for C1 at concrete inputs: in `WreadErr` nothing exists, so the
first dependency is unfound and the loop fails with the state untouched; in
`Wmiss` the whole run returns the `None` signal. -/
theorem c1_unfound_dependency_aborts_witness :
    resolve_libs WreadErr true (collect_libs WreadErr 0) [bytes "/usr/lib"]
        [bytes "x", bytes "y"] ⟨[], []⟩ = (⟨[], []⟩, .fail)
    ∧ get_libs_full_paths Wmiss 1 (bytes "/a") = .none_ :=
  ⟨c1_unfound_dependency_aborts.1 WreadErr true (collect_libs WreadErr 0)
      [bytes "/usr/lib"] (bytes "x") [bytes "y"] ⟨[], []⟩ (by decide),
   c1_unfound_dependency_aborts.2 Wmiss 1 (bytes "/a") (by decide)⟩

/-- C2: the per-file search list is exactly the five fixed directories,
then the existing `LD_LIBRARY_PATH` directories, then the `RPATH`/`RUNPATH`
hints (`search_dirs w hints = (fixed_dirs ++ env_dirs w) ++ hints` holds
definitionally and the first conjunct shows `collect_libs` probes that very
list); and resolution is first-match-wins: when every directory of a prefix
fails the probe and `d` passes it, the loop behaves as on the singleton
`[d]` — later directories are never consulted. -/
theorem c2_search_order_and_first_match :
    (∀ (w : World) (fuel : Nat) (p : List Nat) (st : CState) (e : ElfData)
        (dynstr : List Nat) (entries : List DynEntry) (libs hints : List (List Nat)),
        w.readElf p = .ok e → e.dynstr = some dynstr → e.dynamic = some entries →
        process_entries dynstr entries [] [] = .ok libs hints →
        collect_libs w (fuel + 1) p st
          = resolve_libs w e.is64 (collect_libs w fuel)
              ((fixed_dirs ++ env_dirs w) ++ hints) libs st)
    ∧ (∀ (w : World) (is64 : Bool) (rec : List Nat → CState → CState × COut)
        (lib : List Nat) (dirs1 : List (List Nat)) (d : List Nat)
        (dirs2 : List (List Nat)) (st : CState),
        (∀ d' ∈ dirs1,
          (w.pathExists (path_join d' lib) && verify_arch w (path_join d' lib) is64) = false) →
        (w.pathExists (path_join d lib) && verify_arch w (path_join d lib) is64) = true →
        resolve_one w is64 rec lib (dirs1 ++ d :: dirs2) st
          = resolve_one w is64 rec lib [d] st) := by
  constructor
  · intro w fuel p st e dynstr entries libs hints h1 h2 h3 h4
    rw [collect_libs_run w fuel p st e dynstr entries libs hints h1 h2 h3 h4]
    rfl
  · intro w is64 rec lib dirs1 d dirs2 st h1 h2
    exact resolve_one_first_match w is64 rec lib dirs1 d dirs2 st h1 h2

/-- Witness for C2 at concrete inputs: in `Wmiss` the probed list is the
fixed directories followed by the (empty) environment directories and
(empty) hints; in `W3` the dependency `x` hits the first fixed directory
and the tail is never consulted. -/
theorem c2_search_order_and_first_match_witness :
    collect_libs Wmiss 1 (bytes "/a") ⟨[], []⟩
      = resolve_libs Wmiss true (collect_libs Wmiss 0)
          ((fixed_dirs ++ env_dirs Wmiss) ++ []) [bytes "x"] ⟨[], []⟩
    ∧ resolve_one W3 true (collect_libs W3 0) (bytes "x")
        ([] ++ bytes "/usr/lib" :: [bytes "/nope"]) ⟨[], []⟩
      = resolve_one W3 true (collect_libs W3 0) (bytes "x") [bytes "/usr/lib"] ⟨[], []⟩ :=
  ⟨c2_search_order_and_first_match.1 Wmiss 0 (bytes "/a") ⟨[], []⟩
      ⟨true, some (bytes "x" ++ [0]), some [⟨.needed, 0⟩]⟩
      (bytes "x" ++ [0]) [⟨.needed, 0⟩] [bytes "x"] [] (by decide) rfl rfl (by decide),
   c2_search_order_and_first_match.2 W3 true (collect_libs W3 0) (bytes "x")
      [] (bytes "/usr/lib") [bytes "/nope"] ⟨[], []⟩ (by decide) (by decide)⟩

/-- Counterexample to C3: in `W3` the environment directory `/opt` exists
(it is in `env_dirs W3`) and holds a word-size-matching candidate for the
declared dependency `x`, yet resolution returns `/usr/lib/x` from the fixed
directory `/usr/lib` — so an existing environment directory does *not*
precede the fixed directories in the probe order. -/
theorem c3_cex_env_does_not_precede_fixed :
    get_libs_full_paths W3 5 (bytes "/app/main") = .some_ [bytes "/usr/lib/x"]
    ∧ bytes "/opt" ∈ env_dirs W3
    ∧ W3.pathExists (path_join (bytes "/opt") (bytes "x")) = true
    ∧ verify_arch W3 (path_join (bytes "/opt") (bytes "x")) true = true
    ∧ bytes "/usr/lib/x" ≠ path_join (bytes "/opt") (bytes "x") := by
  refine ⟨by decide, by decide, by decide, by decide, by decide⟩

/-- C3 as amended: the five fixed directories are *prepended*, not
appended — they occupy the first five positions of every per-file search
list, the existing environment directories follow them, and whenever some
fixed directory already resolves a dependency the environment and hint
directories are never consulted. -/
theorem c3_fixed_dirs_precede_env :
    ∀ (w : World) (hints : List (List Nat)),
      (search_dirs w hints).take 5 = fixed_dirs
      ∧ (search_dirs w hints).drop 5 = env_dirs w ++ hints
      ∧ ∀ (is64 : Bool) (rec : List Nat → CState → CState × COut)
          (lib : List Nat) (st : CState),
          (resolve_one w is64 rec lib fixed_dirs st).2 ≠ .missing →
          resolve_one w is64 rec lib (search_dirs w hints) st
            = resolve_one w is64 rec lib fixed_dirs st := by
  intro w hints
  have hlen : fixed_dirs.length = 5 := rfl
  have hsd : search_dirs w hints = fixed_dirs ++ (env_dirs w ++ hints) := by
    simp [search_dirs]
  refine ⟨?_, ?_, ?_⟩
  · rw [hsd, ← hlen, List.take_left]
  · rw [hsd, ← hlen, List.drop_left]
  · intro is64 rec lib st h
    rw [hsd]
    exact resolve_one_prefix_found w is64 rec lib fixed_dirs (env_dirs w ++ hints) st h

/-- Witness for C3's amended claim at a concrete input: in `W3` (whose
environment directory `/opt` exists), the probe list starts with the fixed
directories, and since `/usr/lib` already resolves `x`, probing the full
list equals probing the fixed directories alone. -/
theorem c3_fixed_dirs_precede_env_witness :
    (search_dirs W3 []).take 5 = fixed_dirs
    ∧ (search_dirs W3 []).drop 5 = env_dirs W3 ++ []
    ∧ resolve_one W3 true (collect_libs W3 0) (bytes "x") (search_dirs W3 []) ⟨[], []⟩
        = resolve_one W3 true (collect_libs W3 0) (bytes "x") fixed_dirs ⟨[], []⟩ :=
  ⟨(c3_fixed_dirs_precede_env W3 []).1,
   (c3_fixed_dirs_precede_env W3 []).2.1,
   (c3_fixed_dirs_precede_env W3 []).2.2 true (collect_libs W3 0) (bytes "x") ⟨[], []⟩
     (by decide)⟩

/-- Counterexample to C4: in `WreadErr` the starting file cannot be read;
the run ends in a panic (the `.expect` on `fs::read`), which is a different
caller-visible outcome than the `None` failure signal. -/
theorem c4_cex_panic_not_none :
    get_libs_full_paths WreadErr 1 (bytes "/a") = .panic
    ∧ GOut.panic ≠ GOut.none_ := by
  refine ⟨by decide, by decide⟩

/-- C4 as amended: an I/O or structural failure (unreadable file,
unparsable file, missing `.dynstr` or missing `.dynamic`) aborts the
traversal immediately, but through a panic (`.expect`), not through the
`None` failure signal that a resolution failure produces. -/
theorem c4_io_structural_failures_panic :
    ∀ (w : World) (fuel : Nat) (p : List Nat) (st : CState),
      (w.readElf p = .readErr ∨ w.readElf p = .parseErr ∨
        (∃ e, w.readElf p = .ok e ∧ (e.dynstr = none ∨
          (∃ dynstr, e.dynstr = some dynstr ∧ e.dynamic = none)))) →
      collect_libs w (fuel + 1) p st = (st, .panic)
      ∧ get_libs_full_paths w (fuel + 1) p = .panic := by
  intro w fuel p st h
  have hc : ∀ st2 : CState, collect_libs w (fuel + 1) p st2 = (st2, .panic) := by
    intro st2
    rcases h with h | h | ⟨e, he, h2⟩
    · exact collect_libs_readErr w fuel p st2 h
    · exact collect_libs_parseErr w fuel p st2 h
    · rcases h2 with h2 | ⟨dynstr, h2, h3⟩
      · exact collect_libs_no_dynstr w fuel p st2 e he h2
      · exact collect_libs_no_dynamic w fuel p st2 e dynstr he h2 h3
  refine ⟨hc st, ?_⟩
  simp [get_libs_full_paths, hc ⟨[p], []⟩]

/-- Witness for C4's amended claim: applying it to `WreadErr`, where the
starting file is unreadable. -/
theorem c4_io_structural_failures_panic_witness :
    collect_libs WreadErr 1 (bytes "/a") ⟨[bytes "/a"], []⟩ = (⟨[bytes "/a"], []⟩, .panic)
    ∧ get_libs_full_paths WreadErr 1 (bytes "/a") = .panic :=
  c4_io_structural_failures_panic WreadErr 0 (bytes "/a") ⟨[bytes "/a"], []⟩
    (Or.inl rfl)

/-- C5: the traversal invariant. From any state whose result list is
duplicate-free and contained in the visited set, any `collect_libs` run
preserves both properties, only ever extends the visited set by new
insertions (`n ++ old`), and only ever appends to the result list
(`old ++ m`); consequently a successful `get_libs_full_paths` run returns a
duplicate-free list. -/
theorem c5_visited_results_invariant :
    (∀ (w : World) (fuel : Nat) (p : List Nat) (st : CState),
      st.results.Nodup → (∀ q ∈ st.results, q ∈ st.visited) →
      (collect_libs w fuel p st).1.results.Nodup
      ∧ (∀ q ∈ (collect_libs w fuel p st).1.results, q ∈ (collect_libs w fuel p st).1.visited)
      ∧ (∃ n, (collect_libs w fuel p st).1.visited = n ++ st.visited)
      ∧ (∃ m, (collect_libs w fuel p st).1.results = st.results ++ m))
    ∧ (∀ (w : World) (fuel : Nat) (p : List Nat) (res : List (List Nat)),
        get_libs_full_paths w fuel p = .some_ res → res.Nodup) := by
  constructor
  · intro w fuel p st h1 h2
    obtain ⟨⟨hnd, hsub⟩, hgv, hgr⟩ := collect_libs_inv w fuel p st ⟨h1, h2⟩
    exact ⟨hnd, hsub, hgv, hgr⟩
  · intro w fuel p res h
    cases hc : (collect_libs w fuel p ⟨[p], []⟩).2 with
    | ok =>
      have hres : res = (collect_libs w fuel p ⟨[p], []⟩).1.results := by
        simp [get_libs_full_paths, hc] at h
        exact h.symm
      rw [hres]
      exact (collect_libs_inv w fuel p ⟨[p], []⟩
        ⟨List.nodup_nil, by simp⟩).1.1
    | fail => simp [get_libs_full_paths, hc] at h
    | panic => simp [get_libs_full_paths, hc] at h
    | fuelOut => simp [get_libs_full_paths, hc] at h

/-- Witness for C5 at a concrete input: the cyclic world's run from the
seeded initial state keeps the invariant, and its successful result list is
duplicate-free. -/
theorem c5_visited_results_invariant_witness :
    ((collect_libs Wcyc 2 pA ⟨[pA], []⟩).1.results.Nodup
      ∧ (∀ q ∈ (collect_libs Wcyc 2 pA ⟨[pA], []⟩).1.results,
          q ∈ (collect_libs Wcyc 2 pA ⟨[pA], []⟩).1.visited)
      ∧ (∃ n, (collect_libs Wcyc 2 pA ⟨[pA], []⟩).1.visited = n ++ [pA])
      ∧ (∃ m, (collect_libs Wcyc 2 pA ⟨[pA], []⟩).1.results = [] ++ m))
    ∧ List.Nodup [pB] :=
  ⟨c5_visited_results_invariant.1 Wcyc 2 pA ⟨[pA], []⟩ (by decide) (by decide),
   c5_visited_results_invariant.2 Wcyc 2 pA [pB] (by decide)⟩

/-- C6: on the two-node dependency cycle `Wcyc` (`libA` needs `libB`,
`libB` needs `libA`), the traversal terminates at every sufficient fuel
with the fixed result `[/usr/lib/libB]`: the starting library `libA` is not
appended a second time and `libB` appears exactly once; and in general a
candidate passing the probe that is already in the visited set is treated
as resolved with no re-append and no recursion (the state is returned
untouched with outcome `found .ok`). -/
theorem c6_cycle_terminates :
    (∀ fuel : Nat, get_libs_full_paths Wcyc (fuel + 2) pA = .some_ [pB])
    ∧ [pB].count pB = 1
    ∧ [pB].count pA = 0
    ∧ (∀ (w : World) (is64 : Bool) (rec : List Nat → CState → CState × COut)
        (lib dir : List Nat) (rest : List (List Nat)) (st : CState),
        (w.pathExists (path_join dir lib) && verify_arch w (path_join dir lib) is64) = true →
        st.visited.any (fun v => pathComponents v == pathComponents (path_join dir lib)) = true →
        resolve_one w is64 rec lib (dir :: rest) st = (st, .found .ok)) := by
  refine ⟨fun fuel => rfl, by decide, by decide, ?_⟩
  intro w is64 rec lib dir rest st h1 h2
  exact resolve_one_hit w is64 rec lib dir rest st h1 h2

/-- Witness for C6 at concrete inputs: the cyclic run at fuel 2, and the
visited-hit step where `libB`'s dependency `libA` is re-found under the
already-seeded path `/usr/lib/libA`. -/
theorem c6_cycle_terminates_witness :
    get_libs_full_paths Wcyc 2 pA = .some_ [pB]
    ∧ resolve_one Wcyc true (collect_libs Wcyc 0) (bytes "libA")
        (bytes "/usr/lib" :: []) ⟨[pA], []⟩ = (⟨[pA], []⟩, .found .ok) :=
  ⟨c6_cycle_terminates.1 0,
   c6_cycle_terminates.2.2.2 Wcyc true (collect_libs Wcyc 0) (bytes "libA")
     (bytes "/usr/lib") [] ⟨[pA], []⟩ (by decide) (by decide)⟩

/-- C7: a dynamic entry whose string cannot be decoded before its null
terminator (or has no terminator in range) aborts the whole traversal and
is never skipped: an undecodable `DT_NEEDED` name makes the entry loop
fail — hence `collect_libs` returns the `None` signal — and an undecodable
`DT_RPATH`/`DT_RUNPATH` hint panics, in both cases regardless of the
remaining entries; at the top level the `Wbadstr` run returns the failure
signal and the `Wbadhint` run panics — no partial result either way. -/
theorem c7_string_decode_failure_aborts :
    (∀ (dynstr : List Nat) (v : Nat) (rest : List DynEntry) (libs hints : List (List Nat)),
        ¬ dynstr.length < v →
        u8_slice_to_str (dynstr.drop v) = none →
        process_entries dynstr (⟨.needed, v⟩ :: rest) libs hints = .fail)
    ∧ (∀ (dynstr : List Nat) (v : Nat) (rest : List DynEntry) (libs hints : List (List Nat)),
        ¬ dynstr.length < v →
        u8_slice_to_str (dynstr.drop v) = none →
        process_entries dynstr (⟨.rpath, v⟩ :: rest) libs hints = .panic
        ∧ process_entries dynstr (⟨.runpath, v⟩ :: rest) libs hints = .panic)
    ∧ (∀ (w : World) (fuel : Nat) (p : List Nat) (st : CState) (e : ElfData)
        (dynstr : List Nat) (entries : List DynEntry),
        w.readElf p = .ok e → e.dynstr = some dynstr → e.dynamic = some entries →
        (process_entries dynstr entries [] [] = .fail →
          collect_libs w (fuel + 1) p st = (st, .fail))
        ∧ (process_entries dynstr entries [] [] = .panic →
          collect_libs w (fuel + 1) p st = (st, .panic)))
    ∧ get_libs_full_paths Wbadstr 1 (bytes "/a") = .none_
    ∧ get_libs_full_paths Wbadhint 1 (bytes "/a") = .panic := by
  refine ⟨?_, ?_, ?_, by decide, by decide⟩
  · intro dynstr v rest libs hints h1 h2
    simp [process_entries, h1, h2]
  · intro dynstr v rest libs hints h1 h2
    constructor <;> simp [process_entries, h1, h2]
  · intro w fuel p st e dynstr entries h1 h2 h3
    exact ⟨fun h4 => collect_libs_entries_fail w fuel p st e dynstr entries h1 h2 h3 h4,
      fun h4 => collect_libs_entries_panic w fuel p st e dynstr entries h1 h2 h3 h4⟩

/-- Witness for C7 at concrete inputs: the byte `0xFF` is not valid UTF-8,
so a `DT_NEEDED` naming it fails the loop (sibling entries notwithstanding),
an `RPATH`/`RUNPATH` naming it panics, and in `Wbadstr` the failing entry
loop makes `collect_libs` return the failure signal. -/
theorem c7_string_decode_failure_aborts_witness :
    process_entries [255, 0] (⟨.needed, 0⟩ :: [⟨.needed, 0⟩]) [] [] = .fail
    ∧ (process_entries [255, 0] (⟨.rpath, 0⟩ :: [⟨.needed, 0⟩]) [] [] = .panic
       ∧ process_entries [255, 0] (⟨.runpath, 0⟩ :: [⟨.needed, 0⟩]) [] [] = .panic)
    ∧ collect_libs Wbadstr 1 (bytes "/a") ⟨[bytes "/a"], []⟩ = (⟨[bytes "/a"], []⟩, .fail) :=
  ⟨c7_string_decode_failure_aborts.1 [255, 0] 0 [⟨.needed, 0⟩] [] [] (by decide) (by decide),
   c7_string_decode_failure_aborts.2.1 [255, 0] 0 [⟨.needed, 0⟩] [] [] (by decide) (by decide),
   (c7_string_decode_failure_aborts.2.2.1 Wbadstr 0 (bytes "/a") ⟨[bytes "/a"], []⟩
      ⟨true, some [255, 0], some [⟨.needed, 0⟩]⟩ [255, 0] [⟨.needed, 0⟩]
      (by decide) rfl rfl).1 (by decide)⟩

/-- C8: a candidate that exists on disk but fails the word-size check is
skipped exactly like an absent file — the loop continues with the next
directory in either case; only exhausting the whole directory list makes
the loop report the dependency missing, which the library loop turns into
the failure return. -/
theorem c8_arch_mismatch_skips :
    (∀ (w : World) (is64 : Bool) (rec : List Nat → CState → CState × COut)
        (lib dir : List Nat) (rest : List (List Nat)) (st : CState),
        w.pathExists (path_join dir lib) = true →
        verify_arch w (path_join dir lib) is64 = false →
        resolve_one w is64 rec lib (dir :: rest) st = resolve_one w is64 rec lib rest st)
    ∧ (∀ (w : World) (is64 : Bool) (rec : List Nat → CState → CState × COut)
        (lib dir : List Nat) (rest : List (List Nat)) (st : CState),
        w.pathExists (path_join dir lib) = false →
        resolve_one w is64 rec lib (dir :: rest) st = resolve_one w is64 rec lib rest st)
    ∧ (∀ (w : World) (is64 : Bool) (rec : List Nat → CState → CState × COut)
        (lib : List Nat) (st : CState),
        resolve_one w is64 rec lib [] st = (st, .missing))
    ∧ (∀ (w : World) (is64 : Bool) (rec : List Nat → CState → CState × COut)
        (dirs : List (List Nat)) (lib : List Nat) (rest : List (List Nat)) (st : CState),
        (resolve_one w is64 rec lib dirs st).2 = .missing →
        resolve_libs w is64 rec dirs (lib :: rest) st
          = ((resolve_one w is64 rec lib dirs st).1, .fail)) := by
  refine ⟨?_, ?_, fun w is64 rec lib st => rfl, ?_⟩
  · intro w is64 rec lib dir rest st h1 h2
    exact resolve_one_skip w is64 rec lib dir rest st (by simp [probes, h1, h2])
  · intro w is64 rec lib dir rest st h1
    exact resolve_one_skip w is64 rec lib dir rest st (by simp [probes, h1])
  · intro w is64 rec dirs lib rest st h
    simp [resolve_libs, h]

/-- Witness for C8 at concrete inputs: in `Warch` the candidate
`/usr/lib/x` exists but is 32-bit while the requester is 64-bit, so the
loop moves past it; in `Wmiss` exhausting the fixed directories for `x`
yields the failure return. -/
theorem c8_arch_mismatch_skips_witness :
    resolve_one Warch true (collect_libs Warch 0) (bytes "x")
        (bytes "/usr/lib" :: []) ⟨[], []⟩
      = resolve_one Warch true (collect_libs Warch 0) (bytes "x") [] ⟨[], []⟩
    ∧ resolve_libs Wmiss true (collect_libs Wmiss 0) fixed_dirs [bytes "x"] ⟨[], []⟩
      = ((resolve_one Wmiss true (collect_libs Wmiss 0) (bytes "x") fixed_dirs ⟨[], []⟩).1,
         .fail) :=
  ⟨c8_arch_mismatch_skips.1 Warch true (collect_libs Warch 0) (bytes "x")
      (bytes "/usr/lib") [] ⟨[], []⟩ (by decide) (by decide),
   c8_arch_mismatch_skips.2.2.2 Wmiss true (collect_libs Wmiss 0) fixed_dirs
      (bytes "x") [] ⟨[], []⟩ (by decide)⟩

/-- Counterexample to C9: visited-set membership is not exact equality of
the joined path string. In `Wc9` the start is supplied as `/usr/lib//init`;
its dependency `init` is found at the string-distinct spelling
`/usr/lib/init` (which is not an element of the visited list
`[/usr/lib//init]` under list membership, i.e. string equality), yet the
run appends nothing — the candidate was treated as already visited because
its path components coincide. -/
theorem c9_cex_exact_string_equality :
    get_libs_full_paths Wc9 5 (bytes "/usr/lib//init") = .some_ []
    ∧ Wc9.pathExists (path_join (bytes "/usr/lib") (bytes "init")) = true
    ∧ verify_arch Wc9 (path_join (bytes "/usr/lib") (bytes "init")) true = true
    ∧ path_join (bytes "/usr/lib") (bytes "init") ∉ ([bytes "/usr/lib//init"] : List (List Nat))
    ∧ pathComponents (path_join (bytes "/usr/lib") (bytes "init"))
        = pathComponents (bytes "/usr/lib//init") := by
  refine ⟨by decide, by decide, by decide, by decide, by decide⟩

/-- C9 as amended: membership in the visited set (and hence uniqueness of
the result list) is decided by syntactic component-wise path equality —
`PathBuf` equality, which collapses repeated separators and `.` segments
but performs no other canonicalization and no symlink resolution: a probing
step treats a candidate as visited exactly when some visited element has
equal `pathComponents`, and otherwise appends it and recurses; and there
are inputs (`Wc9b`: one underlying file hard-linked as `/usr/lib/liba` and
`/usr/lib/libb`, identical reads) where two component-distinct spellings of
one file are both appended and each recursed into separately. -/
theorem c9_component_equality_membership :
    (∀ (w : World) (is64 : Bool) (rec : List Nat → CState → CState × COut)
        (lib dir : List Nat) (rest : List (List Nat)) (st : CState),
        (w.pathExists (path_join dir lib) && verify_arch w (path_join dir lib) is64) = true →
        (st.visited.any
            (fun v => pathComponents v == pathComponents (path_join dir lib)) = true →
          resolve_one w is64 rec lib (dir :: rest) st = (st, .found .ok))
        ∧ (st.visited.any
            (fun v => pathComponents v == pathComponents (path_join dir lib)) = false →
          resolve_one w is64 rec lib (dir :: rest) st
            = ((rec (path_join dir lib)
                  ⟨path_join dir lib :: st.visited, st.results ++ [path_join dir lib]⟩).1,
               .found (rec (path_join dir lib)
                  ⟨path_join dir lib :: st.visited, st.results ++ [path_join dir lib]⟩).2)))
    ∧ (Wc9b.readElf (bytes "/usr/lib/liba") = Wc9b.readElf (bytes "/usr/lib/libb")
       ∧ pathComponents (bytes "/usr/lib/liba") ≠ pathComponents (bytes "/usr/lib/libb")
       ∧ get_libs_full_paths Wc9b 3 (bytes "/app/main")
          = .some_ [bytes "/usr/lib/liba", bytes "/usr/lib/libb"]) := by
  refine ⟨?_, by decide, by decide, by decide⟩
  intro w is64 rec lib dir rest st h1
  exact ⟨fun h2 => resolve_one_hit w is64 rec lib dir rest st h1 h2,
    fun h2 => resolve_one_fresh w is64 rec lib dir rest st h1 h2⟩

/-- Witness for C9's amended claim at concrete inputs: the visited-hit step
of `Wc9` (components equal although strings differ) and the fresh-append
step of `Wc9b`. -/
theorem c9_component_equality_membership_witness :
    resolve_one Wc9 true (collect_libs Wc9 0) (bytes "init")
        (bytes "/usr/lib" :: []) ⟨[bytes "/usr/lib//init"], []⟩
      = (⟨[bytes "/usr/lib//init"], []⟩, .found .ok)
    ∧ resolve_one Wc9b true (collect_libs Wc9b 0) (bytes "liba")
        (bytes "/usr/lib" :: []) ⟨[], []⟩
      = ((collect_libs Wc9b 0 (path_join (bytes "/usr/lib") (bytes "liba"))
            ⟨[path_join (bytes "/usr/lib") (bytes "liba")],
             [path_join (bytes "/usr/lib") (bytes "liba")]⟩).1,
         .found (collect_libs Wc9b 0 (path_join (bytes "/usr/lib") (bytes "liba"))
            ⟨[path_join (bytes "/usr/lib") (bytes "liba")],
             [path_join (bytes "/usr/lib") (bytes "liba")]⟩).2) :=
  ⟨(c9_component_equality_membership.1 Wc9 true (collect_libs Wc9 0) (bytes "init")
      (bytes "/usr/lib") [] ⟨[bytes "/usr/lib//init"], []⟩ (by decide)).1 (by decide),
   (c9_component_equality_membership.1 Wc9b true (collect_libs Wc9b 0) (bytes "liba")
      (bytes "/usr/lib") [] ⟨[], []⟩ (by decide)).2 (by decide)⟩

/-- C10: a candidate path that exists but cannot be read, or cannot be
parsed as an object file, makes the architecture check return `false`, so
the probing loop skips it and continues with the next directory — with the
same continuation a word-size mismatch produces — and such a candidate
never by itself aborts the traversal. -/
theorem c10_unreadable_candidate_skipped :
    (∀ (w : World) (cand : List Nat) (is64 : Bool),
        w.readElf cand = .readErr → verify_arch w cand is64 = false)
    ∧ (∀ (w : World) (cand : List Nat) (is64 : Bool),
        w.readElf cand = .parseErr → verify_arch w cand is64 = false)
    ∧ (∀ (w : World) (is64 : Bool) (rec : List Nat → CState → CState × COut)
        (lib dir : List Nat) (rest : List (List Nat)) (st : CState),
        (w.readElf (path_join dir lib) = .readErr
          ∨ w.readElf (path_join dir lib) = .parseErr) →
        resolve_one w is64 rec lib (dir :: rest) st = resolve_one w is64 rec lib rest st) := by
  have hv : ∀ (w : World) (cand : List Nat) (is64 : Bool),
      (w.readElf cand = .readErr ∨ w.readElf cand = .parseErr) →
      verify_arch w cand is64 = false := by
    intro w cand is64 h
    rcases h with h | h <;> simp [verify_arch, h]
  refine ⟨fun w cand is64 h => hv w cand is64 (Or.inl h),
    fun w cand is64 h => hv w cand is64 (Or.inr h), ?_⟩
  intro w is64 rec lib dir rest st h
  exact resolve_one_skip w is64 rec lib dir rest st
    (by simp [probes, hv w (path_join dir lib) is64 h])

/-- Witness for C10 at a concrete input: in `Wunread` every path exists but
no file can be read; the candidate `/usr/lib/x` is skipped and the loop
continues. -/
theorem c10_unreadable_candidate_skipped_witness :
    verify_arch Wunread (bytes "/usr/lib/x") true = false
    ∧ resolve_one Wunread true (collect_libs Wunread 0) (bytes "x")
        (bytes "/usr/lib" :: [bytes "/lib64"]) ⟨[], []⟩
      = resolve_one Wunread true (collect_libs Wunread 0) (bytes "x")
        [bytes "/lib64"] ⟨[], []⟩ :=
  ⟨c10_unreadable_candidate_skipped.1 Wunread (bytes "/usr/lib/x") true rfl,
   c10_unreadable_candidate_skipped.2.2 Wunread true (collect_libs Wunread 0) (bytes "x")
     (bytes "/usr/lib") [bytes "/lib64"] ⟨[], []⟩ (Or.inl rfl)⟩

end DynLibFinder
